import Mathlib

/-!
Shallow embedding of the glazewm-debug dashboard core (domain model,
protocol parser, shared state store, update cycle) translated from the
Rust sources under src/, together with theorems settling the frozen
claims about that code.

Machine-integer conventions: Rust `u32` fields are embedded as `Nat`
(with explicit range hypotheses or wrapping where overflow matters),
`i32` fields as `Int`, and the `u32 -> i32` `as`-cast and `i32` addition
in `Rectangle::contains_point` are embedded with their two's-complement
wrapping semantics.  Rust `f64` appears only in comparisons against 0.0;
it is embedded as `F64`, a rational magnitude or NaN, which reproduces
IEEE-754 ordering for exactly the comparisons the code performs.
-/

namespace Glazewm

/-- IEEE-754 double restricted to the operations the code performs on
`scale_factor` (ordering comparisons against 0.0): `nan` is the
incomparable NaN value, `fin q` a non-NaN value of signed magnitude `q`. -/
inductive F64 where
  | nan : F64
  | fin : ℚ → F64
deriving DecidableEq

/-- IEEE comparison `x <= 0.0`; false for NaN. -/
def F64.leZero : F64 → Bool
  | .nan => false
  | .fin q => decide (q ≤ 0)

/-- IEEE comparison `x > 0.0`; false for NaN. -/
def F64.gtZero : F64 → Bool
  | .nan => false
  | .fin q => decide (0 < q)

/-! ### Value objects (src/src/domain/values.rs) -/

/-- Embeds `Position` (values.rs): `x: i32, y: i32`. -/
structure Position where
  x : Int
  y : Int
deriving DecidableEq

/-- Embeds `Size` (values.rs): `width: u32, height: u32`. -/
structure Size where
  width : Nat
  height : Nat
deriving DecidableEq

/-- Embeds `Rectangle` (values.rs): position plus size. -/
structure Rectangle where
  position : Position
  size : Size
deriving DecidableEq

/-- Two's-complement reinterpretation of a `u32` value as `i32`
(the semantics of Rust's `as i32` cast on a `u32`). -/
def u32AsI32 (n : Nat) : Int :=
  if n < 2147483648 then (n : Int) else (n : Int) - 4294967296

/-- Wrapping `i32` arithmetic result normalisation: reduce an integer into
`[-2^31, 2^31)` modulo `2^32` (release-profile Rust overflow semantics). -/
def i32Wrap (z : Int) : Int :=
  (z + 2147483648) % 4294967296 - 2147483648

/-- Embeds `Rectangle::contains_point` (values.rs lines 81-86): inclusive lower
bound, exclusive upper bound on both axes, where the width/height are
`u32` values cast with `as i32` and added with `i32` arithmetic. -/
def Rectangle.contains_point (r : Rectangle) (p : Position) : Bool :=
  decide (p.x ≥ r.position.x) &&
  decide (p.x < i32Wrap (r.position.x + u32AsI32 r.size.width)) &&
  decide (p.y ≥ r.position.y) &&
  decide (p.y < i32Wrap (r.position.y + u32AsI32 r.size.height))

/-- Embeds `MonitorId` (values.rs): opaque wrapper over a string (tuple field 0). -/
structure MonitorId where
  val : String
deriving DecidableEq

/-- Embeds `WorkspaceId` (values.rs): opaque wrapper over a string. -/
structure WorkspaceId where
  val : String
deriving DecidableEq

/-- Embeds `WindowId` (values.rs): opaque wrapper over a string. -/
structure WindowId where
  val : String
deriving DecidableEq

/-! ### Domain enums (src/src/domain/mod.rs) -/

/-- Embeds `FocusState` (mod.rs). -/
inductive FocusState where
  | Focused
  | Unfocused
deriving DecidableEq

/-- Embeds `FocusState::is_focused`. -/
def FocusState.is_focused : FocusState → Bool
  | .Focused => true
  | .Unfocused => false

/-- Embeds `WindowState`.  Note: the declaration at domain/mod.rs lines 33-41
lists only `Tiling`, `Floating`, `Minimized`, but parser.rs line 308 and
window.rs lines 101 and 208 (the crate's own test) use
`WindowState::Fullscreen`, and spec section 3 lists it; the embedding
includes the `Fullscreen` variant those uses require. -/
inductive WindowState where
  | Tiling
  | Floating
  | Minimized
  | Fullscreen
deriving DecidableEq

/-- Embeds `DisplayState` (mod.rs). -/
inductive DisplayState where
  | Shown
  | Hidden
  | Hiding
deriving DecidableEq

/-- Embeds `DisplayState::is_visible`. -/
def DisplayState.is_visible : DisplayState → Bool
  | .Shown => true
  | .Hidden => false
  | .Hiding => false

/-- Embeds `TilingDirection` (mod.rs). -/
inductive TilingDirection where
  | Horizontal
  | Vertical
deriving DecidableEq

/-! ### Window entity (src/src/domain/window.rs) -/

/-- Embeds `Window` (window.rs): leaf entity. -/
structure Window where
  id : WindowId
  title : String
  process_name : String
  geometry : Rectangle
  state : WindowState
  focus_state : FocusState
  display_state : DisplayState
deriving DecidableEq

/-- Embeds `Window::is_focused`. -/
def Window.is_focused (w : Window) : Bool :=
  w.focus_state.is_focused

/-! ### Domain errors (src/src/domain/errors.rs) -/

/-- Embeds `DomainError` (errors.rs).  Variants carry the same payloads as the
Rust enum; `InvalidScaleFactor` carries the embedded `F64`. -/
inductive DomainError where
  | WindowNotFound (id : WindowId)
  | WorkspaceNotFound (id : WorkspaceId)
  | DuplicateWindowId (id : WindowId)
  | DuplicateWorkspaceId (id : WorkspaceId)
  | InvalidStateTransition (fromState toState : WindowState)
  | InvalidGeometry (width height : Nat)
  | InvalidDpi (dpi : Int)
  | InvalidScaleFactor (scale : F64)
  | WorkspaceCapacityExceeded (max attempted : Nat)
  | MultipleActiveWorkspaces (monitor_id : MonitorId)
  | NoActiveWorkspace (monitor_id : MonitorId)
deriving DecidableEq

/-! ### Workspace aggregate (src/src/domain/workspace.rs) -/

/-- Embeds `Workspace` (workspace.rs). -/
structure Workspace where
  id : WorkspaceId
  name : String
  windows : List Window
  tiling_direction : TilingDirection
  focus_state : FocusState
  display_state : DisplayState
deriving DecidableEq

/-- Embeds `Workspace::window_count`. -/
def Workspace.window_count (ws : Workspace) : Nat :=
  ws.windows.length

/-- Embeds `Workspace::is_focused`. -/
def Workspace.is_focused (ws : Workspace) : Bool :=
  ws.focus_state.is_focused

/-- Embeds `Workspace::set_focus_state` (pure update form of the `&mut self`
setter). -/
def Workspace.set_focus_state (ws : Workspace) (fs : FocusState) : Workspace :=
  { ws with focus_state := fs }

/-- Embeds `Workspace::add_window` (workspace.rs lines 106-116).  The Rust
method mutates `&mut self` and returns `Result<(), DomainError>`; the
embedding returns the result paired with the post-state (unchanged on
the error path, window pushed on success). -/
def Workspace.add_window (ws : Workspace) (w : Window) :
    Except DomainError Unit × Workspace :=
  if ws.windows.any (fun x => x.id == w.id) then
    (.error (.DuplicateWindowId w.id), ws)
  else
    (.ok (), { ws with windows := ws.windows ++ [w] })

/-- Helper for `Vec::remove` at the `position` of the first id match:
remove the first window with the given id, keeping the rest in order. -/
def removeFirstById : List Window → WindowId → Option (Window × List Window)
  | [], _ => none
  | w :: rest, wid =>
    if w.id == wid then some (w, rest)
    else
      match removeFirstById rest wid with
      | none => none
      | some (found, rest2) => some (found, w :: rest2)

/-- Embeds `Workspace::remove_window` (workspace.rs lines 118-128): find the
position of the first window with the given id and remove it; not-found
leaves the workspace unchanged. -/
def Workspace.remove_window (ws : Workspace) (window_id : WindowId) :
    Except DomainError Window × Workspace :=
  match removeFirstById ws.windows window_id with
  | none => (.error (.WindowNotFound window_id), ws)
  | some (w, rest) => (.ok w, { ws with windows := rest })

/-! ### Monitor aggregate root (src/src/domain/monitor.rs) -/

/-- Embeds `DeviceInfo` (monitor.rs). -/
structure DeviceInfo where
  dpi : Int
  scale_factor : F64
  device_name : String
deriving DecidableEq

/-- Embeds `Monitor` (monitor.rs). -/
structure Monitor where
  id : MonitorId
  geometry : Rectangle
  workspaces : List Workspace
  focus_state : FocusState
  device_info : DeviceInfo
deriving DecidableEq

/-- Embeds `Monitor::new` (monitor.rs lines 37-54): unchecked constructor; the
derived device name is `format!("Monitor {}", id)`. -/
def Monitor.new (id : MonitorId) (geometry : Rectangle)
    (workspaces : List Workspace) (focus_state : FocusState)
    (dpi : Int) (scale_factor : F64) : Monitor :=
  { id := id
    geometry := geometry
    workspaces := workspaces
    focus_state := focus_state
    device_info :=
      { dpi := dpi
        scale_factor := scale_factor
        device_name := "Monitor " ++ id.val } }

/-- Embeds `Monitor::try_new` (monitor.rs lines 57-93): validated constructor.
Checks geometry (either extent zero), then `dpi <= 0`, then
`scale_factor <= 0.0`, in that order. -/
def Monitor.try_new (id : MonitorId) (geometry : Rectangle)
    (workspaces : List Workspace) (focus_state : FocusState)
    (dpi : Int) (scale_factor : F64) : Except DomainError Monitor :=
  if geometry.size.width = 0 ∨ geometry.size.height = 0 then
    .error (.InvalidGeometry geometry.size.width geometry.size.height)
  else if dpi ≤ 0 then
    .error (.InvalidDpi dpi)
  else if scale_factor.leZero then
    .error (.InvalidScaleFactor scale_factor)
  else
    .ok (Monitor.new id geometry workspaces focus_state dpi scale_factor)

/-- Embeds `Monitor::is_focused`. -/
def Monitor.is_focused (m : Monitor) : Bool :=
  m.focus_state.is_focused

/-- Embeds `Monitor::workspace_count`. -/
def Monitor.workspace_count (m : Monitor) : Nat :=
  m.workspaces.length

/-- Embeds `Monitor::total_window_count`: sum of window counts over workspaces. -/
def Monitor.total_window_count (m : Monitor) : Nat :=
  (m.workspaces.map Workspace.window_count).sum

/-- Embeds `Monitor::active_workspaces` (monitor.rs lines 138-143): the
workspaces whose focus state is `Focused`. -/
def Monitor.active_workspaces (m : Monitor) : List Workspace :=
  m.workspaces.filter (fun ws => ws.is_focused)

/-- Embeds `Monitor::deactivate_all_workspaces` (monitor.rs lines 186-190):
set every contained workspace to `Unfocused`. -/
def Monitor.deactivate_all_workspaces (m : Monitor) : Monitor :=
  { m with workspaces :=
      m.workspaces.map (fun ws => ws.set_focus_state .Unfocused) }

/-- Embeds `Monitor::add_workspace` (monitor.rs lines 153-168): duplicate-id
check first; then, if the incoming workspace is focused, deactivate all
existing workspaces; finally push.  `&mut self` is embedded as the
returned post-state (unchanged on the error path). -/
def Monitor.add_workspace (m : Monitor) (workspace : Workspace) :
    Except DomainError Unit × Monitor :=
  if m.workspaces.any (fun ws => ws.id == workspace.id) then
    (.error (.DuplicateWorkspaceId workspace.id), m)
  else
    let base := if workspace.is_focused then m.deactivate_all_workspaces else m
    (.ok (), { base with workspaces := base.workspaces ++ [workspace] })

/-- A sequence of `add_workspace` calls on a `&mut Monitor`: each call's
post-state feeds the next call, whether or not the call succeeded. -/
def Monitor.add_workspace_seq (m : Monitor) : List Workspace → Monitor
  | [] => m
  | ws :: rest => Monitor.add_workspace_seq (m.add_workspace ws).2 rest

/-! ### CLI errors (src/src/cli/errors.rs) -/

/-- Embeds `CliError` (cli/errors.rs).  `CommandTimeout` carries the command
string (the `Duration` payload is diagnostic only and not modelled). -/
inductive CliError where
  | CommandExecutionFailed (command : String)
  | CommandTimeout (command : String)
  | CommandFailed (command : String) (code : Int) (stderr : String)
  | JsonParseError (message : String)
  | InvalidJsonSchema (field : String)
  | GlazewmNotFound (path : String)
  | IoError (message : String)
deriving DecidableEq

/-- The `Display` text of a `DomainError` (errors.rs `#[error]` strings);
numeric payload formatting for the scale factor is not modelled, the
remaining text follows the source attributes. -/
def domainErrorMessage : DomainError → String
  | .WindowNotFound id => "Window " ++ id.val ++ " not found in workspace"
  | .WorkspaceNotFound id => "Workspace " ++ id.val ++ " not found in monitor"
  | .DuplicateWindowId id => "Duplicate window ID " ++ id.val ++ " in workspace"
  | .DuplicateWorkspaceId id => "Duplicate workspace ID " ++ id.val ++ " in monitor"
  | .InvalidStateTransition _ _ => "Invalid window state transition"
  | .InvalidGeometry _ _ => "Invalid geometry: width and height must be positive"
  | .InvalidDpi dpi => "Invalid DPI value: " ++ toString dpi ++ " (must be > 0)"
  | .InvalidScaleFactor _ => "Invalid scale factor (must be > 0.0)"
  | .WorkspaceCapacityExceeded _ _ => "Workspace capacity exceeded"
  | .MultipleActiveWorkspaces id => "Multiple active workspaces detected on monitor " ++ id.val
  | .NoActiveWorkspace id => "No active workspace found on monitor " ++ id.val

/-! ### Protocol parser (src/src/cli/parser.rs)

The serde deserialization of the JSON text into the raw record
structures is library behaviour (all-or-nothing decoding); it is
abstracted as an `Except CliError`-valued input already decoded into the
raw records below.  Raw fields that the converters bind and discard
(`parent_id`, `handle`, `child_focus_order`, geometry duplicates on the
workspace record, and so on) are omitted, since no code path reads them. -/

/-- Embeds `RawWorkspaceChild` (parser.rs lines 86-124): a workspace's child,
tagged by `type`; only `"window"` is recognised, every other tag decodes
to `Other`. -/
inductive RawWorkspaceChild where
  | Window (id : String) (has_focus : Bool) (width height : Nat)
      (x y : Int) (state_type : String) (display_state : String)
      (title process_name : String)
  | Other
deriving DecidableEq

/-- Embeds `RawMonitorChild` (parser.rs lines 52-84): a monitor's child, tagged
by `type`; only `"workspace"` is recognised, every other tag decodes to
`Other`. -/
inductive RawMonitorChild where
  | Workspace (id name : String) (has_focus is_displayed : Bool)
      (tiling_direction : String) (children : List RawWorkspaceChild)
  | Other
deriving DecidableEq

/-- Embeds `RawMonitor` (parser.rs lines 21-50): one record of the
`data.monitors` array. -/
structure RawMonitor where
  id : String
  x : Int
  y : Int
  width : Nat
  height : Nat
  scale_factor : F64
  dpi : Int
  has_focus : Bool
  children : List RawMonitorChild
deriving DecidableEq

/-- Embeds `MonitorResponse` (parser.rs lines 16-19): the decoded `data` field. -/
structure MonitorResponse where
  monitors : List RawMonitor
deriving DecidableEq

namespace GlazewmParser

/-- Embeds `GlazewmParser::convert_window_from_raw` (parser.rs lines 291-334):
map one raw window record to a `Window`; unrecognised `state.type`
strings default to `Tiling`, unrecognised `displayState` strings default
to `Shown`.  Always returns `Ok`. -/
def convert_window_from_raw (id : String) (has_focus : Bool)
    (width height : Nat) (x y : Int) (state_type : String)
    (display_state : String) (title process_name : String) :
    Except CliError Window :=
  let geometry := Rectangle.mk (Position.mk x y) (Size.mk width height)
  let window_state :=
    match state_type with
    | "tiling" => WindowState.Tiling
    | "floating" => WindowState.Floating
    | "fullscreen" => WindowState.Fullscreen
    | "minimized" => WindowState.Minimized
    | _ => WindowState.Tiling
  let focus_state :=
    if has_focus then FocusState.Focused else FocusState.Unfocused
  let window_display_state :=
    match display_state with
    | "shown" => DisplayState.Shown
    | "hidden" => DisplayState.Hidden
    | _ => DisplayState.Shown
  .ok
    { id := WindowId.mk id
      title := title
      process_name := process_name
      geometry := geometry
      state := window_state
      focus_state := focus_state
      display_state := window_display_state }

/-- The window-collection loop inside `convert_workspace_from_raw`
(parser.rs lines 242-279): children tagged `"window"` are converted in
order (the first conversion error aborts), all other children are
skipped. -/
def convertWorkspaceChildren :
    List RawWorkspaceChild → Except CliError (List Window)
  | [] => .ok []
  | .Window id hf w h x y st ds title pn :: rest =>
    match convert_window_from_raw id hf w h x y st ds title pn with
    | .error e => .error e
    | .ok win =>
      match convertWorkspaceChildren rest with
      | .error e => .error e
      | .ok wins => .ok (win :: wins)
  | .Other :: rest => convertWorkspaceChildren rest

/-- Embeds `GlazewmParser::convert_workspace_from_raw` (parser.rs lines
215-289): map one raw workspace record; unrecognised `tilingDirection`
strings default to `Horizontal` (the match is on the exact string, so it
is case-sensitive). -/
def convert_workspace_from_raw (id name : String)
    (has_focus is_displayed : Bool) (tiling_direction : String)
    (children : List RawWorkspaceChild) : Except CliError Workspace :=
  let focus_state :=
    if has_focus then FocusState.Focused else FocusState.Unfocused
  let display_state :=
    if is_displayed then DisplayState.Shown else DisplayState.Hidden
  let workspace_tiling_direction :=
    match tiling_direction with
    | "horizontal" => TilingDirection.Horizontal
    | "vertical" => TilingDirection.Vertical
    | _ => TilingDirection.Horizontal
  match convertWorkspaceChildren children with
  | .error e => .error e
  | .ok windows =>
    .ok
      { id := WorkspaceId.mk id
        name := name
        windows := windows
        tiling_direction := workspace_tiling_direction
        focus_state := focus_state
        display_state := display_state }

/-- The workspace-collection loop inside `convert_monitor` (parser.rs
lines 172-200): children tagged `"workspace"` are converted in order
(the first conversion error aborts), all other children are skipped. -/
def convertMonitorChildren :
    List RawMonitorChild → Except CliError (List Workspace)
  | [] => .ok []
  | .Workspace id name hf disp td ch :: rest =>
    match convert_workspace_from_raw id name hf disp td ch with
    | .error e => .error e
    | .ok ws =>
      match convertMonitorChildren rest with
      | .error e => .error e
      | .ok wss => .ok (ws :: wss)
  | .Other :: rest => convertMonitorChildren rest

/-- Embeds `GlazewmParser::convert_monitor` (parser.rs lines 160-213): convert
the children, then construct the monitor through the validated
`Monitor::try_new`, mapping a validation failure to
`CliError::JsonParseError`. -/
def convert_monitor (raw : RawMonitor) : Except CliError Monitor :=
  let geometry :=
    Rectangle.mk (Position.mk raw.x raw.y) (Size.mk raw.width raw.height)
  let focus_state :=
    if raw.has_focus then FocusState.Focused else FocusState.Unfocused
  match convertMonitorChildren raw.children with
  | .error e => .error e
  | .ok workspaces =>
    match Monitor.try_new (MonitorId.mk raw.id) geometry workspaces
        focus_state raw.dpi raw.scale_factor with
    | .error e =>
      .error (.JsonParseError ("Failed to create monitor: " ++ domainErrorMessage e))
    | .ok m => .ok m

/-- The monitor-collection loop of `parse_monitors` (parser.rs lines
141-148): convert each raw monitor in order, aborting on the first
error. -/
def convertMonitors : List RawMonitor → Except CliError (List Monitor)
  | [] => .ok []
  | raw :: rest =>
    match convert_monitor raw with
    | .error e => .error e
    | .ok m =>
      match convertMonitors rest with
      | .error e => .error e
      | .ok ms => .ok (m :: ms)

/-- Embeds `GlazewmParser::parse_monitors` (parser.rs lines 138-149): decode
`json["data"]` into `MonitorResponse` (serde, abstracted as the
already-decoded argument; a decode failure is the propagated
`JsonParseError`), then convert every monitor record. -/
def parse_monitors (decoded : Except CliError MonitorResponse) :
    Except CliError (List Monitor) :=
  match decoded with
  | .error e => .error e
  | .ok response => convertMonitors response.monitors

end GlazewmParser

/-! ### Shared state store and update cycle (src/src/app) -/

/-- Embeds `DisplayMode` (tui/app.rs lines 19-25). -/
inductive DisplayMode where
  | Detailed
  | Compact
deriving DecidableEq

/-- Embeds `AppState` (app/state.rs lines 12-21): the four independently
synchronised fields of the store, embedded as a pure snapshot record.
The `Instant` timestamp is abstracted as a `Nat` tick. -/
structure AppState where
  monitors : List Monitor
  running : Bool
  last_update : Option Nat
  display_mode : DisplayMode
deriving DecidableEq

/-- Embeds `AppState::new` (app/state.rs lines 25-32). -/
def AppState.new : AppState :=
  { monitors := []
    running := true
    last_update := none
    display_mode := .Detailed }

/-- Embeds `AppState::update_monitors` (app/state.rs lines 35-41): replace the
monitor list wholesale and stamp the timestamp with the current instant
(`now`). -/
def AppState.update_monitors (s : AppState) (monitors : List Monitor)
    (now : Nat) : AppState :=
  { s with monitors := monitors, last_update := some now }

/-- Embeds `AppState::toggle_display_mode` (app/state.rs lines 94-100). -/
def AppState.toggle_display_mode (s : AppState) : AppState :=
  { s with display_mode :=
      match s.display_mode with
      | .Detailed => .Compact
      | .Compact => .Detailed }

/-- Embeds `UpdateError` (app/update.rs lines 14-20). -/
inductive UpdateError where
  | CliError (e : Glazewm.CliError)
  | Stopped
deriving DecidableEq

/-- Embeds `UpdateLoop::update_once` (app/update.rs lines 109-132).  The
environment of one cycle is `query`: the outcome of the outer-timeout
client call (`.error` covers the mapped `CommandTimeout` and every
client error) whose success value is the serde decode result of
`json["data"]`.  Returns the `Result` of the cycle paired with the
post-state of the store. -/
def UpdateLoop.update_once (s : AppState)
    (query : Except CliError (Except CliError MonitorResponse))
    (now : Nat) : Except UpdateError Unit × AppState :=
  if s.running = false then
    (.error .Stopped, s)
  else
    match query with
    | .error e => (.error (.CliError e), s)
    | .ok decoded =>
      match GlazewmParser.parse_monitors decoded with
      | .error e => (.error (.CliError e), s)
      | .ok monitors => (.ok (), s.update_monitors monitors now)

/-! ### Helper lemmas shared by the claim theorems -/

theorem u32AsI32_of_le (n : Nat) (h : (n : Int) ≤ 2147483647) :
    u32AsI32 n = (n : Int) := by
  have hn : n < 2147483648 := by
    have h2 : (n : Int) < 2147483648 := lt_of_le_of_lt h (by norm_num)
    exact_mod_cast h2
  simp [u32AsI32, hn]

theorem i32Wrap_of_bounds (z : Int) (h1 : -2147483648 ≤ z)
    (h2 : z ≤ 2147483647) : i32Wrap z = z := by
  unfold i32Wrap
  rw [Int.emod_eq_of_lt (by omega) (by omega)]
  omega

/-! ### C9: Rectangle::contains_point -/

/-- C9 counterexample: the claimed equivalence fails for the rectangle at
(0,0) with width 2^31 and height 1 at the point (0,0): the `u32` width
reinterprets as the negative `i32` value -2^31, so `contains_point`
returns false, while the claimed arithmetic characterisation (x within
[0, 0 + 2^31) and y within [0, 0 + 1)) holds at that point. -/
theorem rectangle_contains_point_claim_counterexample :
    Rectangle.contains_point ⟨⟨0, 0⟩, ⟨2147483648, 1⟩⟩ ⟨0, 0⟩ = false ∧
    ((0 : Int) ≥ 0 ∧ (0 : Int) < 0 + 2147483648 ∧
     (0 : Int) ≥ 0 ∧ (0 : Int) < 0 + 1) := by
  refine ⟨?_, by norm_num, by norm_num, by norm_num, by norm_num⟩
  decide

/-- C9 (amended): for every Rectangle whose width and height fit in the
`i32` range and whose `position + extent` sums do not overflow `i32`,
`contains_point p` holds iff `p.x` is at least `position.x` and strictly
below `position.x + width`, and `p.y` is at least `position.y` and
strictly below `position.y + height`; in particular a point exactly on
the right or bottom edge is not contained.  (For larger widths or
heights the `u32 -> i32` cast wraps and the equivalence fails.) -/
theorem rectangle_contains_point_bounded_spec (r : Rectangle)
    (hx : -2147483648 ≤ r.position.x)
    (hy : -2147483648 ≤ r.position.y)
    (hw : (r.size.width : Int) ≤ 2147483647)
    (hh : (r.size.height : Int) ≤ 2147483647)
    (hxw : r.position.x + (r.size.width : Int) ≤ 2147483647)
    (hyh : r.position.y + (r.size.height : Int) ≤ 2147483647) :
    (∀ p : Position,
      r.contains_point p = true ↔
        (r.position.x ≤ p.x ∧ p.x < r.position.x + (r.size.width : Int) ∧
         r.position.y ≤ p.y ∧ p.y < r.position.y + (r.size.height : Int))) ∧
    (∀ q : Int,
      r.contains_point ⟨r.position.x + (r.size.width : Int), q⟩ = false) ∧
    (∀ q : Int,
      r.contains_point ⟨q, r.position.y + (r.size.height : Int)⟩ = false) := by
  have hwn : (0 : Int) ≤ (r.size.width : Int) := Int.ofNat_nonneg _
  have hhn : (0 : Int) ≤ (r.size.height : Int) := Int.ofNat_nonneg _
  have hcw : u32AsI32 r.size.width = (r.size.width : Int) := u32AsI32_of_le _ hw
  have hch : u32AsI32 r.size.height = (r.size.height : Int) := u32AsI32_of_le _ hh
  have hwx : i32Wrap (r.position.x + (r.size.width : Int)) =
      r.position.x + (r.size.width : Int) :=
    i32Wrap_of_bounds _ (by omega) hxw
  have hwy : i32Wrap (r.position.y + (r.size.height : Int)) =
      r.position.y + (r.size.height : Int) :=
    i32Wrap_of_bounds _ (by omega) hyh
  have hmain : ∀ p : Position,
      r.contains_point p = true ↔
        (r.position.x ≤ p.x ∧ p.x < r.position.x + (r.size.width : Int) ∧
         r.position.y ≤ p.y ∧ p.y < r.position.y + (r.size.height : Int)) := by
    intro p
    simp only [Rectangle.contains_point, hcw, hch, hwx, hwy,
      Bool.and_eq_true, decide_eq_true_eq, ge_iff_le]
    tauto
  refine ⟨hmain, ?_, ?_⟩
  · intro q
    cases hc : r.contains_point ⟨r.position.x + (r.size.width : Int), q⟩ with
    | false => rfl
    | true =>
      have hlt := ((hmain _).mp hc).2.1
      simp only [] at hlt
      exact absurd hlt (lt_irrefl _)
  · intro q
    cases hc : r.contains_point ⟨q, r.position.y + (r.size.height : Int)⟩ with
    | false => rfl
    | true =>
      have hlt := ((hmain _).mp hc).2.2.2
      simp only [] at hlt
      exact absurd hlt (lt_irrefl _)

/-- C9 witness: the amended containment specification applied at the
concrete rectangle (10, 10, 100x100) and interior point (50, 50). -/
theorem rectangle_contains_point_bounded_spec_witness :
    Rectangle.contains_point ⟨⟨10, 10⟩, ⟨100, 100⟩⟩ ⟨50, 50⟩ = true :=
  ((rectangle_contains_point_bounded_spec ⟨⟨10, 10⟩, ⟨100, 100⟩⟩
      (by norm_num) (by norm_num) (by norm_num) (by norm_num)
      (by norm_num) (by norm_num)).1 ⟨50, 50⟩).mpr
    (by refine ⟨by norm_num, by norm_num, by norm_num, by norm_num⟩)

/-! ### C10: AppState::toggle_display_mode -/

/-- C10: the store-level display-mode toggle sends Detailed to Compact
and Compact to Detailed, and applying it twice restores the starting
store state exactly (the store applies every toggle; no debouncing
happens here). -/
theorem toggle_display_mode_involution (s : AppState) :
    (s.display_mode = .Detailed →
      s.toggle_display_mode.display_mode = .Compact) ∧
    (s.display_mode = .Compact →
      s.toggle_display_mode.display_mode = .Detailed) ∧
    s.toggle_display_mode.toggle_display_mode = s := by
  obtain ⟨ms, run, lu, dm⟩ := s
  cases dm <;> simp [AppState.toggle_display_mode]

/-- C10 witness: toggling the freshly created store (Detailed) yields
Compact. -/
theorem toggle_display_mode_involution_witness :
    AppState.new.toggle_display_mode.display_mode = DisplayMode.Compact :=
  (toggle_display_mode_involution AppState.new).1 rfl

/-! ### C2: Monitor::try_new validation -/

/-- C2 counterexample: with a NaN scale factor (for which the guard
`scale_factor <= 0.0` is false) `Monitor::try_new` succeeds, yet the
constructed monitor's scale factor is not `> 0.0`; so the claim's
"otherwise succeeds with ... scale_factor > 0.0" fails at this input. -/
theorem monitor_try_new_nan_counterexample :
    (Monitor.try_new ⟨"m1"⟩ ⟨⟨0, 0⟩, ⟨1920, 1080⟩⟩ [] .Unfocused 96 .nan).map
      (fun m => m.device_info.scale_factor.gtZero) = .ok false := by
  rfl

/-- C2 (amended): `Monitor::try_new` errors exactly when the width is 0,
the height is 0, `dpi <= 0`, or `scale_factor <= 0.0` (IEEE comparison,
false for NaN), the three validation failures reported as the distinct
kinds `InvalidGeometry`, `InvalidDpi`, `InvalidScaleFactor` with
geometry checked first, then dpi, then scale; otherwise it succeeds with
a monitor carrying the passed geometry, dpi, and scale factor unchanged
(never clamped), whose width, height, and dpi are positive and whose
scale factor is not `<= 0.0` (a NaN scale factor passes validation even
though it is not `> 0.0`). -/
theorem monitor_try_new_validation (id : MonitorId) (geometry : Rectangle)
    (workspaces : List Workspace) (focus_state : FocusState)
    (dpi : Int) (scale_factor : F64) :
    ((∃ e, Monitor.try_new id geometry workspaces focus_state dpi scale_factor
        = .error e) ↔
      (geometry.size.width = 0 ∨ geometry.size.height = 0 ∨
       dpi ≤ 0 ∨ scale_factor.leZero = true)) ∧
    (Monitor.try_new id geometry workspaces focus_state dpi scale_factor
        = .error (.InvalidGeometry geometry.size.width geometry.size.height) ↔
      (geometry.size.width = 0 ∨ geometry.size.height = 0)) ∧
    (Monitor.try_new id geometry workspaces focus_state dpi scale_factor
        = .error (.InvalidDpi dpi) ↔
      (¬(geometry.size.width = 0 ∨ geometry.size.height = 0) ∧ dpi ≤ 0)) ∧
    (Monitor.try_new id geometry workspaces focus_state dpi scale_factor
        = .error (.InvalidScaleFactor scale_factor) ↔
      (¬(geometry.size.width = 0 ∨ geometry.size.height = 0) ∧
       ¬dpi ≤ 0 ∧ scale_factor.leZero = true)) ∧
    (∀ m, Monitor.try_new id geometry workspaces focus_state dpi scale_factor
        = .ok m →
      m.id = id ∧ m.geometry = geometry ∧ m.workspaces = workspaces ∧
      m.focus_state = focus_state ∧ m.device_info.dpi = dpi ∧
      m.device_info.scale_factor = scale_factor ∧
      0 < geometry.size.width ∧ 0 < geometry.size.height ∧
      0 < dpi ∧ scale_factor.leZero = false) := by
  unfold Monitor.try_new
  split_ifs with h1 h2 h3
  · simp [h1]
    tauto
  · simp [h1, h2]
  · simp [h1, h2, h3]
  · refine ⟨by simp [h1, h2, h3], by simp [h1], by simp [h1, h2], by simp [h3], ?_⟩
    intro m hm
    simp only [Except.ok.injEq] at hm
    subst hm
    refine ⟨rfl, rfl, rfl, rfl, rfl, rfl, ?_, ?_, by omega, ?_⟩
    · omega
    · omega
    · cases hls : scale_factor.leZero with
      | false => rfl
      | true => exact absurd hls h3

/-- C2 witness: the validation characterisation applied at a concrete
zero-width geometry, which must be rejected. -/
theorem monitor_try_new_validation_witness :
    ∃ e, Monitor.try_new ⟨"m0"⟩ ⟨⟨0, 0⟩, ⟨0, 1080⟩⟩ [] .Unfocused 96 (.fin 1)
      = .error e :=
  (monitor_try_new_validation ⟨"m0"⟩ ⟨⟨0, 0⟩, ⟨0, 1080⟩⟩ [] .Unfocused 96
    (.fin 1)).1.mpr (Or.inl rfl)

/-! ### C6: Workspace::add_window / remove_window failure behaviour -/

theorem removeFirstById_eq_none (l : List Window) (wid : WindowId)
    (h : l.any (fun x => x.id == wid) = false) :
    removeFirstById l wid = none := by
  induction l with
  | nil => rfl
  | cons w rest ih =>
    simp only [List.any_cons, Bool.or_eq_false_iff] at h
    unfold removeFirstById
    rw [if_neg (by simp [h.1]), ih h.2]

/-- C6: adding a window whose id is already present fails with the
duplicate-id error, and removing an absent id fails with the not-found
error; in both failure cases the post-state workspace is exactly the
starting one (window sequence and count unchanged). -/
theorem workspace_add_remove_window_failure (ws : Workspace) (w : Window)
    (wid : WindowId) :
    (ws.windows.any (fun x => x.id == w.id) = true →
      ws.add_window w = (.error (.DuplicateWindowId w.id), ws)) ∧
    (ws.windows.any (fun x => x.id == wid) = false →
      ws.remove_window wid = (.error (.WindowNotFound wid), ws)) := by
  constructor
  · intro h
    unfold Workspace.add_window
    rw [if_pos h]
  · intro h
    unfold Workspace.remove_window
    rw [removeFirstById_eq_none ws.windows wid h]

/-- C6 witness (Scenario C): on a workspace holding one window with id
"same-id", adding a second window with the same id returns the
duplicate-id error with the workspace unchanged, and removing an absent
id returns the not-found error with the workspace unchanged. -/
theorem workspace_add_remove_window_failure_witness :
    Workspace.add_window
      ⟨⟨"test"⟩, "Test",
        [⟨⟨"same-id"⟩, "Window 1", "app1", ⟨⟨0, 0⟩, ⟨800, 600⟩⟩,
          .Tiling, .Unfocused, .Shown⟩],
        .Horizontal, .Unfocused, .Shown⟩
      ⟨⟨"same-id"⟩, "Window 2", "app2", ⟨⟨0, 0⟩, ⟨800, 600⟩⟩,
        .Tiling, .Unfocused, .Shown⟩
      = (.error (.DuplicateWindowId ⟨"same-id"⟩),
        ⟨⟨"test"⟩, "Test",
          [⟨⟨"same-id"⟩, "Window 1", "app1", ⟨⟨0, 0⟩, ⟨800, 600⟩⟩,
            .Tiling, .Unfocused, .Shown⟩],
          .Horizontal, .Unfocused, .Shown⟩) ∧
    Workspace.remove_window
      ⟨⟨"test"⟩, "Test",
        [⟨⟨"same-id"⟩, "Window 1", "app1", ⟨⟨0, 0⟩, ⟨800, 600⟩⟩,
          .Tiling, .Unfocused, .Shown⟩],
        .Horizontal, .Unfocused, .Shown⟩
      ⟨"absent"⟩
      = (.error (.WindowNotFound ⟨"absent"⟩),
        ⟨⟨"test"⟩, "Test",
          [⟨⟨"same-id"⟩, "Window 1", "app1", ⟨⟨0, 0⟩, ⟨800, 600⟩⟩,
            .Tiling, .Unfocused, .Shown⟩],
          .Horizontal, .Unfocused, .Shown⟩) := by
  constructor
  · exact (workspace_add_remove_window_failure _ _ ⟨"absent"⟩).1 (by rfl)
  · exact (workspace_add_remove_window_failure _
      ⟨⟨"same-id"⟩, "Window 2", "app2", ⟨⟨0, 0⟩, ⟨800, 600⟩⟩,
        .Tiling, .Unfocused, .Shown⟩ _).2 (by rfl)

/-! ### C1: at most one focused workspace per monitor -/

theorem filter_unfocused_map (l : List Workspace) :
    (l.map (fun ws => ws.set_focus_state .Unfocused)).filter
      (fun ws => ws.is_focused) = [] := by
  induction l with
  | nil => rfl
  | cons w rest ih =>
    simp [List.filter_cons, Workspace.set_focus_state, Workspace.is_focused,
      FocusState.is_focused, ih]

theorem add_workspace_active_le (m : Monitor) (ws : Workspace)
    (h : m.active_workspaces.length ≤ 1) :
    (m.add_workspace ws).2.active_workspaces.length ≤ 1 := by
  dsimp only [Monitor.add_workspace]
  split
  · exact h
  · cases hf : ws.is_focused with
    | true =>
      simp only [hf, if_true]
      unfold Monitor.active_workspaces Monitor.deactivate_all_workspaces
      simp [List.filter_append, filter_unfocused_map, List.filter_cons, hf]
    | false =>
      simp only [hf, if_false]
      unfold Monitor.active_workspaces
      simp only [List.filter_append, List.filter_cons, hf]
      simpa using h

theorem add_workspace_seq_active_le (l : List Workspace) :
    ∀ m : Monitor, m.active_workspaces.length ≤ 1 →
      (m.add_workspace_seq l).active_workspaces.length ≤ 1 := by
  induction l with
  | nil => intro m h; exact h
  | cons ws rest ih =>
    intro m h
    exact ih _ (add_workspace_active_le m ws h)

/-- C1: starting from any monitor with at most one focused workspace (in
particular any monitor whose workspaces all arrived through
`add_workspace`), after any sequence of `add_workspace` calls at most
one contained workspace is focused; and inserting a fresh focused
workspace succeeds (no error is reported) with every previously present
workspace forced to `Unfocused` as a side effect of the insertion. -/
theorem monitor_add_workspace_single_focus (m : Monitor)
    (l : List Workspace) (h : m.active_workspaces.length ≤ 1) :
    (m.add_workspace_seq l).active_workspaces.length ≤ 1 ∧
    (∀ (m2 : Monitor) (ws : Workspace),
      ws.is_focused = true →
      m2.workspaces.any (fun w => w.id == ws.id) = false →
      (m2.add_workspace ws).1 = .ok () ∧
      (m2.add_workspace ws).2.workspaces =
        m2.workspaces.map (fun w => w.set_focus_state .Unfocused) ++ [ws] ∧
      ∀ w ∈ (m2.add_workspace ws).2.workspaces.dropLast,
        w.is_focused = false) := by
  refine ⟨add_workspace_seq_active_le l m h, ?_⟩
  intro m2 ws hf hnodup
  have hcond : ¬(m2.workspaces.any (fun w => w.id == ws.id) = true) := by
    simp [hnodup]
  dsimp only [Monitor.add_workspace]
  rw [if_neg hcond]
  simp only [hf, if_true]
  refine ⟨trivial, ?_, ?_⟩
  · unfold Monitor.deactivate_all_workspaces
    rfl
  · intro w hw
    unfold Monitor.deactivate_all_workspaces at hw
    simp only [List.dropLast_concat] at hw
    obtain ⟨x, _, rfl⟩ := List.mem_map.mp hw
    rfl

/-- C1 witness: on a monitor starting with no workspaces, adding two
focused workspaces in sequence leaves at most one focused workspace. -/
theorem monitor_add_workspace_single_focus_witness :
    (Monitor.add_workspace_seq
      ⟨⟨"monitor-1"⟩, ⟨⟨0, 0⟩, ⟨1920, 1080⟩⟩, [], .Focused,
        ⟨96, .fin 1, "Monitor monitor-1"⟩⟩
      [⟨⟨"ws-1"⟩, "First", [], .Horizontal, .Focused, .Shown⟩,
       ⟨⟨"ws-3"⟩, "Third", [], .Horizontal, .Focused, .Shown⟩]
      ).active_workspaces.length ≤ 1 :=
  (monitor_add_workspace_single_focus
    ⟨⟨"monitor-1"⟩, ⟨⟨0, 0⟩, ⟨1920, 1080⟩⟩, [], .Focused,
      ⟨96, .fin 1, "Monitor monitor-1"⟩⟩
    [⟨⟨"ws-1"⟩, "First", [], .Horizontal, .Focused, .Shown⟩,
     ⟨⟨"ws-3"⟩, "Third", [], .Horizontal, .Focused, .Shown⟩]
    (by simp [Monitor.active_workspaces])).1

/-! ### C4: a failed update cycle leaves the store untouched -/

/-- C4: whenever a single update cycle returns any error (stop signal,
transport, envelope, or parse/validation failure), the post-state of the
store is exactly the pre-state (monitor list, timestamp, run flag,
display mode all unchanged); a cycle returning ok replaced the monitor
list by the successfully parsed one and stamped the timestamp; and no
cycle ever changes the run flag. -/
theorem update_once_error_preserves_state (s : AppState)
    (query : Except CliError (Except CliError MonitorResponse))
    (now : Nat) :
    (∀ e, (UpdateLoop.update_once s query now).1 = .error e →
      (UpdateLoop.update_once s query now).2 = s) ∧
    (∀ u, (UpdateLoop.update_once s query now).1 = .ok u →
      ∃ decoded ms, query = .ok decoded ∧
        GlazewmParser.parse_monitors decoded = .ok ms ∧
        (UpdateLoop.update_once s query now).2 = s.update_monitors ms now) ∧
    (UpdateLoop.update_once s query now).2.running = s.running := by
  unfold UpdateLoop.update_once
  by_cases hr : s.running = false
  · simp [hr]
  · rw [if_neg hr]
    cases query with
    | error e =>
      dsimp only
      simp
    | ok decoded =>
      dsimp only
      cases hp : GlazewmParser.parse_monitors decoded with
      | error e =>
        dsimp only
        simp
      | ok ms =>
        dsimp only
        refine ⟨?_, ?_, rfl⟩
        · intro e2 he
          exact nomatch he
        · intro u _
          exact ⟨decoded, ms, rfl, hp, rfl⟩

/-- C4 witness (Scenario D): with the external process failing with exit
code 1 and stderr "not running", the cycle leaves the fresh store
exactly as it was. -/
theorem update_once_error_preserves_state_witness :
    (UpdateLoop.update_once AppState.new
      (.error (.CommandFailed "glazewm query monitors" 1 "not running")) 0).2
      = AppState.new :=
  (update_once_error_preserves_state AppState.new
    (.error (.CommandFailed "glazewm query monitors" 1 "not running")) 0).1
    (.CliError (.CommandFailed "glazewm query monitors" 1 "not running")) rfl

/-! ### C3: parse_monitors is all-or-nothing -/

theorem convertMonitors_cases (l : List RawMonitor) :
    (∃ e, GlazewmParser.convertMonitors l = .error e) ∨
    (∃ ms, GlazewmParser.convertMonitors l = .ok ms ∧
      List.Forall₂ (fun raw m => GlazewmParser.convert_monitor raw = .ok m)
        l ms) := by
  induction l with
  | nil => exact Or.inr ⟨[], rfl, List.Forall₂.nil⟩
  | cons raw rest ih =>
    cases hc : GlazewmParser.convert_monitor raw with
    | error e =>
      exact Or.inl ⟨e, by simp [GlazewmParser.convertMonitors, hc]⟩
    | ok m =>
      rcases ih with ⟨e, he⟩ | ⟨ms, hms, hall⟩
      · exact Or.inl ⟨e, by simp [GlazewmParser.convertMonitors, hc, he]⟩
      · exact Or.inr ⟨m :: ms,
          by simp [GlazewmParser.convertMonitors, hc, hms],
          List.Forall₂.cons hc hall⟩

theorem convertMonitors_error_of_bad (l : List RawMonitor)
    (h : ∃ raw ∈ l, ∃ e, GlazewmParser.convert_monitor raw = .error e) :
    ∃ e, GlazewmParser.convertMonitors l = .error e := by
  induction l with
  | nil =>
    obtain ⟨raw, hmem, _⟩ := h
    exact absurd hmem (List.not_mem_nil raw)
  | cons r rest ih =>
    obtain ⟨raw, hmem, e, he⟩ := h
    cases hc : GlazewmParser.convert_monitor r with
    | error e0 => exact ⟨e0, by simp [GlazewmParser.convertMonitors, hc]⟩
    | ok m =>
      have hrest : raw ∈ rest := by
        rcases List.mem_cons.mp hmem with rfl | hmem2
        · rw [hc] at he; cases he
        · exact hmem2
      obtain ⟨e2, he2⟩ := ih ⟨raw, hrest, e, he⟩
      exact ⟨e2, by simp [GlazewmParser.convertMonitors, hc, he2]⟩

/-- C3: for every decoded input document, `parse_monitors` either
returns an error or returns one converted Monitor per monitor record of
the document, in order (in particular the output length equals the
number of monitor records — never a shorter, partial list); and if any
monitor record fails conversion (in particular the validated
constructor), the whole parse returns an error. -/
theorem parse_monitors_all_or_nothing
    (decoded : Except CliError MonitorResponse) :
    ((∃ e, GlazewmParser.parse_monitors decoded = .error e) ∨
     (∃ response ms, decoded = .ok response ∧
        GlazewmParser.parse_monitors decoded = .ok ms ∧
        List.Forall₂ (fun raw m => GlazewmParser.convert_monitor raw = .ok m)
          response.monitors ms ∧
        ms.length = response.monitors.length)) ∧
    (∀ response, decoded = .ok response →
      (∃ raw ∈ response.monitors, ∃ e,
        GlazewmParser.convert_monitor raw = .error e) →
      ∃ e, GlazewmParser.parse_monitors decoded = .error e) := by
  constructor
  · cases decoded with
    | error e => exact Or.inl ⟨e, rfl⟩
    | ok response =>
      rcases convertMonitors_cases response.monitors with ⟨e, he⟩ | ⟨ms, hok, hall⟩
      · exact Or.inl ⟨e, by simp [GlazewmParser.parse_monitors, he]⟩
      · exact Or.inr ⟨response, ms, rfl,
          by simp [GlazewmParser.parse_monitors, hok],
          hall, hall.length_eq.symm⟩
  · rintro response rfl hbad
    obtain ⟨e, he⟩ := convertMonitors_error_of_bad response.monitors hbad
    exact ⟨e, by simp [GlazewmParser.parse_monitors, he]⟩

/-- C3 witness: a document holding one valid and one invalid monitor
record (zero width) aborts as a whole with an error. -/
theorem parse_monitors_all_or_nothing_witness :
    ∃ e, GlazewmParser.parse_monitors
      (.ok ⟨[⟨"good", 0, 0, 1920, 1080, .fin 1, 96, true, []⟩,
             ⟨"bad", 0, 0, 0, 1080, .fin 1, 96, false, []⟩]⟩)
      = .error e :=
  (parse_monitors_all_or_nothing
    (.ok ⟨[⟨"good", 0, 0, 1920, 1080, .fin 1, 96, true, []⟩,
           ⟨"bad", 0, 0, 0, 1080, .fin 1, 96, false, []⟩]⟩)).2 _ rfl
    ⟨⟨"bad", 0, 0, 0, 1080, .fin 1, 96, false, []⟩, by simp, _, rfl⟩

/-! ### C5: window state / display state string mapping -/

/-- C5: the parser maps a raw window record's `state.type` string
"tiling"/"floating"/"fullscreen"/"minimized" to the corresponding
`WindowState` variant with every other string defaulting to `Tiling`,
and its `displayState` string "shown"/"hidden" to the corresponding
`DisplayState` variant with every other string defaulting to `Shown`.
(The `WindowState` declaration at domain/mod.rs lines 33-41 omits the
`Fullscreen` variant this mapping and window.rs's own test require; the
embedding models the variant the uses demand.) -/
theorem convert_window_state_mapping (id : String) (has_focus : Bool)
    (width height : Nat) (x y : Int) (state_type display_state : String)
    (title process_name : String) :
    ∃ w, GlazewmParser.convert_window_from_raw id has_focus width height x y
        state_type display_state title process_name = .ok w ∧
      (state_type = "tiling" → w.state = .Tiling) ∧
      (state_type = "floating" → w.state = .Floating) ∧
      (state_type = "fullscreen" → w.state = .Fullscreen) ∧
      (state_type = "minimized" → w.state = .Minimized) ∧
      (state_type ∉ ["tiling", "floating", "fullscreen", "minimized"] →
        w.state = .Tiling) ∧
      (display_state = "shown" → w.display_state = .Shown) ∧
      (display_state = "hidden" → w.display_state = .Hidden) ∧
      (display_state ∉ ["shown", "hidden"] → w.display_state = .Shown) := by
  refine ⟨_, rfl, ?_, ?_, ?_, ?_, ?_, ?_, ?_, ?_⟩
  · intro h; subst h; rfl
  · intro h; subst h; rfl
  · intro h; subst h; rfl
  · intro h; subst h; rfl
  · intro h
    dsimp only
    split <;> simp_all
  · intro h; subst h; rfl
  · intro h; subst h; rfl
  · intro h
    dsimp only
    split <;> simp_all

/-- C5 witness: unrecognised strings "weird" and "odd" default to
`Tiling` and `Shown`. -/
theorem convert_window_state_mapping_witness :
    ∃ w, GlazewmParser.convert_window_from_raw "w1" true 800 600 0 0
        "weird" "odd" "T" "P" = .ok w ∧
      w.state = .Tiling ∧ w.display_state = .Shown := by
  obtain ⟨w, hok, _, _, _, _, hst, _, _, hds⟩ :=
    convert_window_state_mapping "w1" true 800 600 0 0 "weird" "odd" "T" "P"
  exact ⟨w, hok, hst (by decide), hds (by decide)⟩

/-! ### C7: tiling direction string mapping -/

theorem convertWorkspaceChildren_ok (children : List RawWorkspaceChild) :
    ∃ wins, GlazewmParser.convertWorkspaceChildren children = .ok wins := by
  induction children with
  | nil => exact ⟨[], rfl⟩
  | cons c rest ih =>
    obtain ⟨wins, hwins⟩ := ih
    cases c with
    | Window id hf w h x y st ds t p =>
      cases hw : GlazewmParser.convert_window_from_raw id hf w h x y st ds t p with
      | error e => exact absurd hw (by simp [GlazewmParser.convert_window_from_raw])
      | ok win =>
        exact ⟨win :: wins,
          by simp [GlazewmParser.convertWorkspaceChildren, hw, hwins]⟩
    | Other =>
      exact ⟨wins, by simp [GlazewmParser.convertWorkspaceChildren, hwins]⟩

/-- C7: the parser maps a raw workspace record's `tilingDirection`
string "horizontal" to `Horizontal` and "vertical" to `Vertical`
(comparison on the exact string, hence case-sensitive), and every other
string — for example "diagonal" — yields `Horizontal` instead of a parse
failure (the conversion still succeeds). -/
theorem convert_workspace_tiling_direction (id name : String)
    (has_focus is_displayed : Bool) (tiling_direction : String)
    (children : List RawWorkspaceChild) :
    ∃ ws, GlazewmParser.convert_workspace_from_raw id name has_focus
        is_displayed tiling_direction children = .ok ws ∧
      (tiling_direction = "horizontal" → ws.tiling_direction = .Horizontal) ∧
      (tiling_direction = "vertical" → ws.tiling_direction = .Vertical) ∧
      (tiling_direction ∉ ["horizontal", "vertical"] →
        ws.tiling_direction = .Horizontal) := by
  obtain ⟨wins, hwins⟩ := convertWorkspaceChildren_ok children
  unfold GlazewmParser.convert_workspace_from_raw
  rw [hwins]
  refine ⟨_, rfl, ?_, ?_, ?_⟩
  · intro h; subst h; rfl
  · intro h; subst h; rfl
  · intro h
    dsimp only
    split <;> simp_all

/-- C7 witness (Scenario B): the unrecognised direction "diagonal" and
the wrong-case "Vertical" both parse successfully with the `Horizontal`
fallback. -/
theorem convert_workspace_tiling_direction_witness :
    (∃ ws, GlazewmParser.convert_workspace_from_raw "ws-1" "WS" true true
        "diagonal" [] = .ok ws ∧ ws.tiling_direction = .Horizontal) ∧
    (∃ ws, GlazewmParser.convert_workspace_from_raw "ws-1" "WS" true true
        "Vertical" [] = .ok ws ∧ ws.tiling_direction = .Horizontal) := by
  constructor
  · obtain ⟨ws, hok, _, _, hdef⟩ :=
      convert_workspace_tiling_direction "ws-1" "WS" true true "diagonal" []
    exact ⟨ws, hok, hdef (by decide)⟩
  · obtain ⟨ws, hok, _, _, hdef⟩ :=
      convert_workspace_tiling_direction "ws-1" "WS" true true "Vertical" []
    exact ⟨ws, hok, hdef (by decide)⟩

/-! ### C8: unrecognised child kinds are silently dropped -/

/-- Recogniser for the `if let RawMonitorChild::Workspace` pattern test
inside `convert_monitor`. -/
def isWorkspaceTagged : RawMonitorChild → Bool
  | .Workspace _ _ _ _ _ _ => true
  | .Other => false

/-- Recogniser for the `if let RawWorkspaceChild::Window` pattern test
inside `convert_workspace_from_raw`. -/
def isWindowTagged : RawWorkspaceChild → Bool
  | .Window _ _ _ _ _ _ _ _ _ _ => true
  | .Other => false

theorem convertWorkspaceChildren_filter (l : List RawWorkspaceChild) :
    GlazewmParser.convertWorkspaceChildren l =
      GlazewmParser.convertWorkspaceChildren (l.filter isWindowTagged) := by
  induction l with
  | nil => rfl
  | cons c rest ih =>
    cases c with
    | Window id hf w h x y st ds t p =>
      simp only [List.filter_cons, isWindowTagged, if_true]
      simp only [GlazewmParser.convertWorkspaceChildren, ih]
    | Other =>
      simp [List.filter_cons, isWindowTagged,
        GlazewmParser.convertWorkspaceChildren, ih]

theorem convertMonitorChildren_filter (l : List RawMonitorChild) :
    GlazewmParser.convertMonitorChildren l =
      GlazewmParser.convertMonitorChildren (l.filter isWorkspaceTagged) := by
  induction l with
  | nil => rfl
  | cons c rest ih =>
    cases c with
    | Workspace id name hf disp td ch =>
      simp only [List.filter_cons, isWorkspaceTagged, if_true]
      simp only [GlazewmParser.convertMonitorChildren, ih]
    | Other =>
      simp [List.filter_cons, isWorkspaceTagged,
        GlazewmParser.convertMonitorChildren, ih]

theorem monitor_try_new_ok_workspaces (id : MonitorId)
    (geometry : Rectangle) (workspaces : List Workspace)
    (focus_state : FocusState) (dpi : Int) (scale_factor : F64)
    (m : Monitor)
    (h : Monitor.try_new id geometry workspaces focus_state dpi scale_factor
      = .ok m) : m.workspaces = workspaces := by
  unfold Monitor.try_new at h
  split_ifs at h
  simp only [Except.ok.injEq] at h
  subst h
  rfl

/-- C8: during parsing, every monitor child whose type tag is not
"workspace" and every workspace child whose type tag is not "window" is
silently dropped: converting a record equals converting it with the
unrecognised children removed (so unknown kinds never cause an error),
and on success the constructed Monitor's workspaces (respectively the
Workspace's windows) are exactly the conversions of the recognised
children, in order. -/
theorem parser_skips_unknown_children :
    (∀ raw : RawMonitor,
      GlazewmParser.convert_monitor raw =
        GlazewmParser.convert_monitor
          { raw with children := raw.children.filter isWorkspaceTagged } ∧
      ∀ m, GlazewmParser.convert_monitor raw = .ok m →
        GlazewmParser.convertMonitorChildren
          (raw.children.filter isWorkspaceTagged) = .ok m.workspaces) ∧
    (∀ (id name : String) (has_focus is_displayed : Bool)
        (tiling_direction : String) (children : List RawWorkspaceChild),
      GlazewmParser.convert_workspace_from_raw id name has_focus
          is_displayed tiling_direction children =
        GlazewmParser.convert_workspace_from_raw id name has_focus
          is_displayed tiling_direction (children.filter isWindowTagged) ∧
      ∀ ws, GlazewmParser.convert_workspace_from_raw id name has_focus
          is_displayed tiling_direction children = .ok ws →
        GlazewmParser.convertWorkspaceChildren
          (children.filter isWindowTagged) = .ok ws.windows) := by
  constructor
  · intro raw
    constructor
    · unfold GlazewmParser.convert_monitor
      dsimp only
      rw [← convertMonitorChildren_filter]
    · intro m hm
      unfold GlazewmParser.convert_monitor at hm
      rw [← convertMonitorChildren_filter]
      cases hc : GlazewmParser.convertMonitorChildren raw.children with
      | error e =>
        rw [hc] at hm
        exact nomatch hm
      | ok wss =>
        rw [hc] at hm
        dsimp only at hm
        cases ht : Monitor.try_new (MonitorId.mk raw.id)
            (Rectangle.mk (Position.mk raw.x raw.y)
              (Size.mk raw.width raw.height)) wss
            (if raw.has_focus then FocusState.Focused
             else FocusState.Unfocused) raw.dpi raw.scale_factor with
        | error e =>
          rw [ht] at hm
          exact nomatch hm
        | ok m2 =>
          rw [ht] at hm
          dsimp only at hm
          obtain rfl : m2 = m := by
            simpa using hm
          rw [monitor_try_new_ok_workspaces _ _ _ _ _ _ _ ht]
  · intro id name has_focus is_displayed tiling_direction children
    constructor
    · unfold GlazewmParser.convert_workspace_from_raw
      rw [← convertWorkspaceChildren_filter]
    · intro ws hws
      unfold GlazewmParser.convert_workspace_from_raw at hws
      rw [← convertWorkspaceChildren_filter]
      cases hc : GlazewmParser.convertWorkspaceChildren children with
      | error e =>
        rw [hc] at hws
        exact nomatch hws
      | ok wins =>
        rw [hc] at hws
        dsimp only at hws
        obtain rfl : _ = ws := by
          simpa using hws
        rfl

/-- C8 witness: a monitor record carrying one unrecognised child parses
identically to the same record with that child removed, and its
workspace list is exactly the (empty) conversion of the recognised
children. -/
theorem parser_skips_unknown_children_witness :
    GlazewmParser.convert_monitor
        ⟨"m1", 0, 0, 1920, 1080, .fin 1, 96, true, [.Other]⟩ =
      GlazewmParser.convert_monitor
        ⟨"m1", 0, 0, 1920, 1080, .fin 1, 96, true,
          ([RawMonitorChild.Other].filter isWorkspaceTagged)⟩ ∧
    GlazewmParser.convertMonitorChildren
        ([RawMonitorChild.Other].filter isWorkspaceTagged) =
      .ok (Monitor.new ⟨"m1"⟩ ⟨⟨0, 0⟩, ⟨1920, 1080⟩⟩ [] .Focused 96
        (.fin 1)).workspaces := by
  have h := parser_skips_unknown_children.1
    ⟨"m1", 0, 0, 1920, 1080, .fin 1, 96, true, [.Other]⟩
  exact ⟨h.1, h.2 _ (by rfl)⟩

end Glazewm
